import Mathlib

/-!
Shallow embedding of the webhook orchestration core of the repository:
the deduplication store and pipeline helpers (src/services/webhook-helpers.js),
the template-method request pipeline (BaseWebhook, src/unnamed/part_000),
the outbound delivery client (BaseA1ZapClient, src/unnamed/part_001), and
the group response coordinator (services/multi-user-tracker.js, whose source is
embedded in src/GROUP_TRACKING_TEST_RESULTS.md, over the keyed interview-state
store of src/services/group-profile-storage.js).

JavaScript conventions are modelled explicitly: optional string fields are
`Option String` with the empty string falsy (`truthy`), `Map` / keyed-object
stores are association lists updated in place (`jsMapSet`), and fallible
asynchronous collaborators are `Except` values supplied as parameters.
-/

namespace Spec2Proof

/-! ### JavaScript-style helpers -/

/-- Truthiness of an optional string field as JavaScript sees it:
`undefined`/`null` and the empty string are falsy. -/
def truthy : Option String → Bool
  | none => false
  | some s => s != ""

/-- `a || b` on optional string fields. -/
def jsOr (a b : Option String) : Option String :=
  if truthy a then a else b

/-- `Map.set` / keyed object assignment: replace the value under an existing
key in place, else append the new binding (JavaScript insertion order). -/
def jsMapSet {β : Type} (s : List (String × β)) (k : String) (v : β) :
    List (String × β) :=
  if s.any (fun e => e.1 == k) then
    s.map (fun e => if e.1 == k then (k, v) else e)
  else
    s ++ [(k, v)]

/-- `Map.has` / key presence. -/
def jsMapHas {β : Type} (s : List (String × β)) (k : String) : Bool :=
  s.any (fun e => e.1 == k)

/-- `map.get(k)` / `obj[k] || null`. -/
def jsMapGet {β : Type} (s : List (String × β)) (k : String) : Option β :=
  (s.find? (fun e => e.1 == k)).map (fun e => e.2)

/-! ### Deduplication store — src/services/webhook-helpers.js

`processedMessages` is a `Map` from message id to the `Date.now()` timestamp
at which it was marked; a `setInterval` sweep removes entries older than
`MESSAGE_EXPIRY_MS`. Time is an explicit `Nat` parameter (milliseconds). -/

abbrev DedupStore := List (String × Nat)

def MESSAGE_EXPIRY_MS : Nat := 5 * 60 * 1000

/-- `isDuplicateMessage(messageId)`: `if (!messageId) return false;
return processedMessages.has(messageId)`. -/
def isDuplicateMessage (s : DedupStore) (messageId : Option String) : Bool :=
  match messageId with
  | none => false
  | some m => if m == "" then false else jsMapHas s m

/-- `markMessageProcessed(messageId)`: `if (messageId)
processedMessages.set(messageId, Date.now())`. -/
def markMessageProcessed (s : DedupStore) (messageId : Option String) (now : Nat) :
    DedupStore :=
  match messageId with
  | none => s
  | some m => if m == "" then s else jsMapSet s m now

/-- The periodic cleanup callback: delete every entry with
`now - timestamp > MESSAGE_EXPIRY_MS`. -/
def sweepProcessedMessages (s : DedupStore) (now : Nat) : DedupStore :=
  s.filter (fun e => !(decide (now - e.2 > MESSAGE_EXPIRY_MS)))

/-- `pre` is a prefix of `s`; the meaning of `String.startsWith`, computed on
the underlying character lists so that it reduces definitionally. -/
def strStartsWith (s pre : String) : Bool :=
  pre.data.isPrefixOf s.data

/-- `isTestChat(chatId)`: `chatId && chatId.startsWith('test-')`. -/
def isTestChat : Option String → Bool
  | none => false
  | some c => strStartsWith c "test-"

/-! ### Outbound delivery client — BaseA1ZapClient (src/unnamed/part_001)

An attempt's outcome is abstracted as `Nat → Except SendError α`: the result
the network would return for the given (1-based) attempt number. The client's
control flow — which attempts are made, which errors are retried, the delay
before each retry — is embedded exactly. -/

inductive NetCode where
  | econnreset
  | etimedout
  | enotfound
  | otherCode
  deriving DecidableEq

inductive SendError where
  | http (status : Nat)
  | net (code : NetCode)
  deriving DecidableEq

instance {ε α : Type} [DecidableEq ε] [DecidableEq α] : DecidableEq (Except ε α)
  | .ok a, .ok b =>
    if h : a = b then .isTrue (by rw [h]) else .isFalse (by simp [h])
  | .error a, .error b =>
    if h : a = b then .isTrue (by rw [h]) else .isFalse (by simp [h])
  | .ok _, .error _ => .isFalse (by simp)
  | .error _, .ok _ => .isFalse (by simp)

/-- The retryable-error classification in `sendMessage`:
`(error.response && error.response.status >= 500) ||
 (error.response && error.response.status === 429) ||
 error.code === 'ECONNRESET' || error.code === 'ETIMEDOUT' ||
 error.code === 'ENOTFOUND'`. -/
def isRetryable : SendError → Bool
  | .http status => decide (status ≥ 500) || decide (status = 429)
  | .net c => c == .econnreset || c == .etimedout || c == .enotfound

def maxRetries : Nat := 3

def retryDelay : Nat := 1000

/-- Outcome of a `sendMessage`/`sendMediaMessage` call: the value returned or
error thrown, the number of attempts actually made, and the delay slept
before each retry (in order). -/
structure SendOutcome (α : Type) where
  result : Except SendError α
  attemptsMade : Nat
  delays : List Nat

/-- The retry loop body of `sendMessage`, from attempt number `attempt` with
`fuel` loop iterations remaining (`fuel = maxRetries - attempt + 1` at every
call). On error: retry iff retryable and `attempt < maxRetries`, sleeping
`retryDelay * attempt`; otherwise rethrow. -/
def sendAttempts {α : Type} (f : Nat → Except SendError α) :
    Nat → Nat → SendOutcome α
  | _, 0 => { result := .error (.net .otherCode), attemptsMade := 0, delays := [] }
  | attempt, fuel + 1 =>
    match f attempt with
    | .ok a => { result := .ok a, attemptsMade := 1, delays := [] }
    | .error e =>
      if isRetryable e && decide (attempt < maxRetries) then
        let rest := sendAttempts f (attempt + 1) fuel
        { result := rest.result, attemptsMade := rest.attemptsMade + 1,
          delays := retryDelay * attempt :: rest.delays }
      else
        { result := .error e, attemptsMade := 1, delays := [] }

/-- `BaseA1ZapClient.sendMessage`: `for (attempt = 1; attempt <= maxRetries; ...)`. -/
def sendMessage {α : Type} (f : Nat → Except SendError α) : SendOutcome α :=
  sendAttempts f 1 maxRetries

/-- `BaseA1ZapClient.sendMediaMessage`: a single `axios.post`, no retry loop. -/
def sendMediaMessage {α : Type} (f : Nat → Except SendError α) : SendOutcome α :=
  match f 1 with
  | .ok a => { result := .ok a, attemptsMade := 1, delays := [] }
  | .error e => { result := .error e, attemptsMade := 1, delays := [] }

/-! ### Request pipeline — BaseWebhook (src/unnamed/part_000)

`handle` is parameterized by the behaviors of its collaborators (history
fetch, the subclass `processRequest` hook, the client's send calls), each an
`Except` outcome. The returned `Trace` instruments which collaborators were
invoked; the message-history formatting of `processMessageHistory` is
irrelevant to every verified property, so a conversation is an opaque
`List String` passed through unchanged. -/

structure InboundBody where
  event : Option String := none
  chatId : Option String := none
  messageId : Option String := none
  messageContent : Option String := none
  mediaUrl : Option String := none
  agentId : Option String := none
  rootChatId : Option String := none
  metaChatId : Option String := none

structure WebhookData where
  chatId : String
  agentId : Option String
  messageId : Option String
  userMessage : String
  imageUrl : Option String

/-- `BaseWebhook.extractWebhookData`: fails iff `!chat?.id`. -/
def extractWebhookData (body : InboundBody) : Except String WebhookData :=
  if truthy body.chatId then
    .ok { chatId := body.chatId.getD "",
          agentId := body.agentId,
          messageId := body.messageId,
          userMessage := body.messageContent.getD "",
          imageUrl := if truthy body.mediaUrl then body.mediaUrl else none }
  else
    .error "Missing chat.id in webhook payload"

/-- Result of the subclass `processRequest` hook, with the fields `sendResponse`
inspects (`sent`, `imageUrl`, `response`). -/
structure ProcessResult where
  response : Option String := none
  sent : Bool := false
  imageUrl : Option String := none

/-- Behaviors of the pipeline's collaborators for one `handle` call. -/
structure Collab where
  historyOutcome : Except String (List String)
  hookOutcome : WebhookData → List String → Except String ProcessResult
  sendOutcome : Except String Unit
  welcomeSendOutcome : Except String Unit
  notifOutcome : Except String Unit

/-- The HTTP response envelope `handle` produces. -/
structure Envelope where
  status : Nat
  success : Bool
  skipped : Bool := false
  reason : Option String := none
  errorMsg : Option String := none
  messageId : Option String := none
  deriving DecidableEq

/-- Which collaborators a `handle` call invoked. -/
structure Trace where
  dedupChecked : Bool := false
  dedupMarked : Bool := false
  historyFetched : Bool := false
  hookCalled : Bool := false
  deliveryCalled : Bool := false
  errorNotifAttempts : Nat := 0
  deriving DecidableEq

structure HandleResult where
  envelope : Envelope
  store : DedupStore
  trace : Trace

/-- `webhookHelpers.fetchAndProcessHistory`: returns `[]` when `!chatId ||
!agentId`, and swallows any history-fetch error (returns `[]`). -/
def fetchAndProcessHistory (historyOutcome : Except String (List String))
    (chatId : String) (agentId : Option String) : List String :=
  if chatId == "" || !(truthy agentId) then []
  else
    match historyOutcome with
    | .ok h => h
    | .error _ => []

/-- Whether `BaseWebhook.sendResponse` reaches `client.sendMessage`: skipped
for test chats, when `result.sent`, when `result.imageUrl` is set, or when
there is no `result.response`; `webhookHelpers.sendResponse` re-checks test
mode and swallows any send error. -/
def sendResponseInvokesClient (chatId : String) (r : ProcessResult) : Bool :=
  if isTestChat (some chatId) then false
  else if r.sent then false
  else if truthy r.imageUrl then false
  else if truthy r.response then !(isTestChat (some chatId))
  else false

/-- How many user-facing error notifications `BaseWebhook.handleError`
attempts: one iff `req.body?.chat?.id` is truthy and not a test chat; the
attempt's own failure is swallowed, so the count never depends on its
outcome. -/
def handleErrorAttempts (body : InboundBody) : Nat :=
  if truthy body.chatId && !(isTestChat body.chatId) then 1 else 0

/-- `BaseWebhook.handleChatStarted`: the welcome flow for `chat.started`
events; validates `chatId || chatMetadata?.chatId`, sends a welcome message
unless test mode, answers 500 on a send failure. -/
def handleChatStarted (c : Collab) (body : InboundBody) (store : DedupStore) :
    HandleResult :=
  let chatId := jsOr body.rootChatId body.metaChatId
  if truthy chatId = false then
    { envelope := { status := 400, success := false,
                    errorMsg := some "Missing chatId in webhook payload" },
      store := store, trace := {} }
  else if isTestChat chatId = false then
    match c.welcomeSendOutcome with
    | .ok _ =>
      { envelope := { status := 200, success := true }, store := store,
        trace := { deliveryCalled := true } }
    | .error e =>
      { envelope := { status := 500, success := false, errorMsg := some e },
        store := store, trace := { deliveryCalled := true } }
  else
    { envelope := { status := 200, success := true }, store := store, trace := {} }

/-- `BaseWebhook.handle`: the template method. Route `chat.started`; validate;
short-circuit duplicates; mark processed before any asynchronous step; fetch
history (failures swallowed); run the hook; send the response; any exception
escaping those steps is caught by `handleError`, which notifies the user
best-effort and returns a 500 envelope. -/
def handle (c : Collab) (body : InboundBody) (store : DedupStore) (now : Nat) :
    HandleResult :=
  if body.event = some "chat.started" then
    handleChatStarted c body store
  else
    match extractWebhookData body with
    | .error e =>
      { envelope := { status := 400, success := false, errorMsg := some e },
        store := store, trace := {} }
    | .ok data =>
      if isDuplicateMessage store data.messageId then
        { envelope := { status := 200, success := true, skipped := true,
                        reason := some "duplicate_message",
                        messageId := data.messageId },
          store := store, trace := { dedupChecked := true } }
      else
        let store1 := markMessageProcessed store data.messageId now
        let conv := fetchAndProcessHistory c.historyOutcome data.chatId data.agentId
        match c.hookOutcome data conv with
        | .error e =>
          { envelope := { status := 500, success := false, errorMsg := some e },
            store := store1,
            trace := { dedupChecked := true, dedupMarked := true,
                       historyFetched := true, hookCalled := true,
                       errorNotifAttempts := handleErrorAttempts body } }
        | .ok r =>
          { envelope := { status := 200, success := true }, store := store1,
            trace := { dedupChecked := true, dedupMarked := true,
                       historyFetched := true, hookCalled := true,
                       deliveryCalled := sendResponseInvokesClient data.chatId r } }

/-! ### Group response coordinator — services/multi-user-tracker.js
(source embedded in src/GROUP_TRACKING_TEST_RESULTS.md), over the per-chat
keyed interview-state store of src/services/group-profile-storage.js. Only
the `questionResponseTracking` field of an interview state is touched by the
tracker, so that is the field modelled. -/

structure ResponseState where
  currentQuestionId : Option String
  currentQuestionTimestamp : Option Nat
  expectedUserIds : List String
  respondedUserIds : List String
  questionCount : Nat
  deriving DecidableEq

def defaultResponseState : ResponseState :=
  { currentQuestionId := none, currentQuestionTimestamp := none,
    expectedUserIds := [], respondedUserIds := [], questionCount := 0 }

structure InterviewState where
  questionResponseTracking : Option ResponseState := none
  deriving DecidableEq

abbrev GroupStorage := List (String × InterviewState)

/-- `groupProfileStorage.getInterviewState(chatId)`: `state[chatId] || null`. -/
def getInterviewState (st : GroupStorage) (chatId : String) : Option InterviewState :=
  jsMapGet st chatId

/-- `groupProfileStorage.setInterviewState(chatId, interviewState)`. -/
def setInterviewState (st : GroupStorage) (chatId : String) (iv : InterviewState) :
    GroupStorage :=
  jsMapSet st chatId iv

/-- `getResponseState(chatId)`: the stored `questionResponseTracking`, or the
all-null default when the chat has no state or no tracking object. -/
def getResponseState (st : GroupStorage) (chatId : String) : ResponseState :=
  match getInterviewState st chatId with
  | none => defaultResponseState
  | some iv =>
    match iv.questionResponseTracking with
    | none => defaultResponseState
    | some t => t

/-- `saveResponseState(chatId, responseState)`. -/
def saveResponseState (st : GroupStorage) (chatId : String) (rs : ResponseState) :
    GroupStorage :=
  let iv := (getInterviewState st chatId).getD {}
  setInterviewState st chatId { iv with questionResponseTracking := some rs }

/-- `startQuestionTracking(chatId, expectedUserIds)`: fresh question id built
from `Date.now()` and a random suffix (passed explicitly as `now`/`rand`),
responded set reset, question count incremented. -/
def startQuestionTracking (st : GroupStorage) (chatId : String)
    (expectedUserIds : List String) (now : Nat) (rand : String) :
    ResponseState × GroupStorage :=
  let rs : ResponseState :=
    { currentQuestionId := some ("question_" ++ toString now ++ "_" ++ rand),
      currentQuestionTimestamp := some now,
      expectedUserIds := expectedUserIds,
      respondedUserIds := [],
      questionCount := (getResponseState st chatId).questionCount + 1 }
  (rs, saveResponseState st chatId rs)

structure RecordResult where
  allResponded : Bool
  responseState : ResponseState
  deriving DecidableEq

/-- `recordUserResponse(chatId, userId)`: early return when no question is
tracked; otherwise push `userId` onto `respondedUserIds` unless already
included, persist, and report whether every expected user has responded
(`expected.length > 0 && expected.every(id => responded.includes(id))`). -/
def recordUserResponse (st : GroupStorage) (chatId userId : String) :
    RecordResult × GroupStorage :=
  let rs := getResponseState st chatId
  if truthy rs.currentQuestionId = false then
    ({ allResponded := false, responseState := rs }, st)
  else if rs.respondedUserIds.contains userId then
    let allResponded := decide (rs.expectedUserIds.length > 0) &&
      rs.expectedUserIds.all (fun id => rs.respondedUserIds.contains id)
    ({ allResponded := allResponded, responseState := rs }, st)
  else
    let rs1 := { rs with respondedUserIds := rs.respondedUserIds ++ [userId] }
    let st1 := saveResponseState st chatId rs1
    let allResponded := decide (rs1.expectedUserIds.length > 0) &&
      rs1.expectedUserIds.all (fun id => rs1.respondedUserIds.contains id)
    ({ allResponded := allResponded, responseState := rs1 }, st1)

/-- `clearQuestionTracking(chatId)`: reset question id, timestamp and both
user lists; preserve `questionResponseTracking?.questionCount || 0`. -/
def clearQuestionTracking (st : GroupStorage) (chatId : String) : GroupStorage :=
  let iv := (getInterviewState st chatId).getD {}
  let qc := match iv.questionResponseTracking with
    | some t => t.questionCount
    | none => 0
  let cleared : ResponseState :=
    { currentQuestionId := none, currentQuestionTimestamp := none,
      expectedUserIds := [], respondedUserIds := [], questionCount := qc }
  setInterviewState st chatId { iv with questionResponseTracking := some cleared }

/-- `isWaitingForResponses(chatId)`: `currentQuestionId !== null &&
expectedUserIds.length > 0 && respondedUserIds.length < expectedUserIds.length`. -/
def isWaitingForResponses (st : GroupStorage) (chatId : String) : Bool :=
  let rs := getResponseState st chatId
  rs.currentQuestionId.isSome && decide (rs.expectedUserIds.length > 0) &&
    decide (rs.respondedUserIds.length < rs.expectedUserIds.length)

/-- The spec's invariant on a tracking state: the responded set is included
in the expected set. -/
abbrev respondedIncluded (rs : ResponseState) : Prop :=
  ∀ u ∈ rs.respondedUserIds, u ∈ rs.expectedUserIds

/-! ### Concrete inputs used by counterexamples and witnesses -/

def c2Store0 : GroupStorage := (startQuestionTracking [] "c" ["A"] 0 "x").2

def c3Store : GroupStorage :=
  (recordUserResponse (startQuestionTracking [] "g" ["A", "B"] 0 "y").2 "g" "C").2

def c3RS : ResponseState :=
  { currentQuestionId := some "question_0_y", currentQuestionTimestamp := some 0,
    expectedUserIds := ["A", "B"], respondedUserIds := ["A"], questionCount := 1 }

def c5f : Nat → Except SendError Nat :=
  fun attempt => if attempt ≤ 2 then .error (.http 500) else .ok 7

def c6f : Nat → Except SendError Nat :=
  fun attempt => if attempt = 1 then .error (.http 500) else .ok 7

def c8Body : InboundBody :=
  { event := none, chatId := some "test-chat-1", messageId := some "m1",
    messageContent := some "hello", agentId := some "agent-1" }

def c8BodyB : InboundBody :=
  { event := none, chatId := some "chat-2", messageId := some "m9",
    messageContent := some "hi", agentId := some "agent-1" }

def c1Body : InboundBody :=
  { event := none, chatId := some "chat-1", messageId := some "m42",
    messageContent := some "hi", agentId := some "agent-1" }

def c9Body : InboundBody :=
  { event := none, chatId := some "chat-3", messageId := none,
    messageContent := some "hi", agentId := some "agent-1" }

def c9Result : ProcessResult := { response := some "ok" }

def c8Collab : Collab :=
  { historyOutcome := .ok [], hookOutcome := fun _ _ => .error "boom",
    sendOutcome := .ok (), welcomeSendOutcome := .ok (), notifOutcome := .ok () }

def plainCollab (r : ProcessResult) : Collab :=
  { historyOutcome := .ok [], hookOutcome := fun _ _ => .ok r,
    sendOutcome := .ok (), welcomeSendOutcome := .ok (), notifOutcome := .ok () }

/-! ### Association-list lemmas for the JavaScript map operations -/

theorem find?_map_of_any {β : Type} (s : List (String × β)) (k : String) (v : β)
    (h : s.any (fun e => e.1 == k) = true) :
    (s.map (fun e => if e.1 == k then (k, v) else e)).find? (fun e => e.1 == k) =
      some (k, v) := by
  induction s with
  | nil => simp at h
  | cons a t ih =>
    by_cases ha : (a.1 == k) = true
    · rw [List.map_cons, if_pos ha, List.find?_cons_of_pos]
      simp
    · have ha' : (a.1 == k) = false := by
        cases hb : (a.1 == k) with
        | true => exact absurd hb ha
        | false => rfl
      have h' : t.any (fun e => e.1 == k) = true := by
        simpa [List.any_cons, ha'] using h
      rw [List.map_cons, if_neg ha, List.find?_cons_of_neg, ih h']
      simpa using ha

theorem find?_append_of_not_any {β : Type} (s : List (String × β)) (k : String)
    (v : β) (h : s.any (fun e => e.1 == k) = false) :
    (s ++ [(k, v)]).find? (fun e => e.1 == k) = some (k, v) := by
  induction s with
  | nil => simp [List.find?]
  | cons a t ih =>
    have ha : (a.1 == k) = false := by
      cases hb : (a.1 == k) with
      | true => simp [List.any_cons, hb] at h
      | false => rfl
    have h' : t.any (fun e => e.1 == k) = false := by
      simpa [List.any_cons, ha] using h
    rw [List.cons_append, List.find?_cons_of_neg, ih h']
    simpa using ha

theorem jsMapSet_find? {β : Type} (s : List (String × β)) (k : String) (v : β) :
    (jsMapSet s k v).find? (fun e => e.1 == k) = some (k, v) := by
  unfold jsMapSet
  by_cases h : s.any (fun e => e.1 == k) = true
  · simp only [h, if_true]
    exact find?_map_of_any s k v h
  · have h' : s.any (fun e => e.1 == k) = false := by
      cases hb : s.any (fun e => e.1 == k) with
      | true => exact absurd hb h
      | false => rfl
    simp only [h', Bool.false_eq_true, if_false]
    exact find?_append_of_not_any s k v h'

theorem jsMapGet_jsMapSet {β : Type} (s : List (String × β)) (k : String) (v : β) :
    jsMapGet (jsMapSet s k v) k = some v := by
  unfold jsMapGet
  rw [jsMapSet_find?]
  rfl

theorem jsMapHas_jsMapSet {β : Type} (s : List (String × β)) (k : String) (v : β) :
    jsMapHas (jsMapSet s k v) k = true := by
  have h := jsMapSet_find? s k v
  have hm := List.mem_of_find?_eq_some h
  exact List.any_eq_true.mpr ⟨(k, v), hm, by simp⟩

theorem jsMapSet_key_val {β : Type} (s : List (String × β)) (k : String) (v : β) :
    ∀ e ∈ jsMapSet s k v, e.1 = k → e.2 = v := by
  intro e he hk
  unfold jsMapSet at he
  by_cases h : s.any (fun e => e.1 == k) = true
  · simp only [h, if_true, List.mem_map] at he
    obtain ⟨a, _, rfl⟩ := he
    by_cases h2 : (a.1 == k) = true
    · simp [h2]
    · simp [h2] at hk
      exact absurd (by simpa using hk) h2
  · have h' : s.any (fun e => e.1 == k) = false := by
      cases hb : s.any (fun e => e.1 == k) with
      | true => exact absurd hb h
      | false => rfl
    simp only [h', Bool.false_eq_true, if_false, List.mem_append,
      List.mem_singleton] at he
    rcases he with he | he
    · exfalso
      have : s.any (fun e => e.1 == k) = true :=
        List.any_eq_true.mpr ⟨e, he, by simp [hk]⟩
      rw [h'] at this
      exact Bool.false_ne_true this
    · rw [he]

/-- If a message id is truthy, marking it makes it a duplicate. -/
theorem isDup_after_mark (s : DedupStore) (mid : Option String) (t : Nat)
    (h : truthy mid = true) :
    isDuplicateMessage (markMessageProcessed s mid t) mid = true := by
  rcases mid with _ | m
  · simp [truthy] at h
  · have hm : (m == "") = false := by simpa [truthy] using h
    simp [isDuplicateMessage, markMessageProcessed, hm, jsMapHas_jsMapSet]

/-! ### Claim theorems -/

/-- C4: dedup TTL lifecycle. For a truthy message id `m` not in the store,
`isDuplicateMessage` is false before `markMessageProcessed`, true immediately
after, and false again after a sweep runs at a time more than the 5-minute
`MESSAGE_EXPIRY_MS` TTL after the marking timestamp. -/
theorem dedup_ttl_lifecycle (s : DedupStore) (m : String) (t tSweep : Nat)
    (hm : (m == "") = false) (hfresh : jsMapHas s m = false)
    (httl : tSweep - t > MESSAGE_EXPIRY_MS) :
    isDuplicateMessage s (some m) = false
    ∧ isDuplicateMessage (markMessageProcessed s (some m) t) (some m) = true
    ∧ isDuplicateMessage
        (sweepProcessedMessages (markMessageProcessed s (some m) t) tSweep)
        (some m) = false := by
  refine ⟨by simp [isDuplicateMessage, hm, hfresh], ?_, ?_⟩
  · exact isDup_after_mark s (some m) t (by simpa [truthy] using hm)
  · simp only [isDuplicateMessage, markMessageProcessed, hm, Bool.false_eq_true,
      if_false]
    have hval := jsMapSet_key_val s m t
    cases hb : jsMapHas (sweepProcessedMessages (jsMapSet s m t) tSweep) m with
    | false => rfl
    | true =>
      exfalso
      obtain ⟨e, he, hek⟩ := List.any_eq_true.mp hb
      obtain ⟨hmem, hkeep⟩ := List.mem_filter.mp he
      have hek' : e.1 = m := by simpa using hek
      have hev : e.2 = t := hval e hmem hek'
      rw [hev] at hkeep
      simp [httl] at hkeep

/-- C4 witness: marking `"m1"` at t=0 in an empty store makes it a duplicate,
and a sweep at t=301000 ms (301 s) clears it. -/
theorem dedup_ttl_lifecycle_witness :
    (("m1" == "") = false ∧ jsMapHas ([] : DedupStore) "m1" = false
      ∧ 301000 - 0 > MESSAGE_EXPIRY_MS)
    ∧ (isDuplicateMessage [] (some "m1") = false
      ∧ isDuplicateMessage (markMessageProcessed [] (some "m1") 0) (some "m1") = true
      ∧ isDuplicateMessage
          (sweepProcessedMessages (markMessageProcessed [] (some "m1") 0) 301000)
          (some "m1") = false) :=
  ⟨⟨by decide, by decide, by decide⟩,
   dedup_ttl_lifecycle [] "m1" 0 301000 (by decide) (by decide) (by decide)⟩

/-- C5: text delivery retry policy of `sendMessage`. At most 3 attempts; a
non-retryable first error propagates with no retry and no delay; every
retried attempt failed with a classified-transient error; the delay before
the i-th retry is `retryDelay * i` (linear backoff); and the 500/500/200
scenario succeeds on attempt 3 after exactly 2 retries with delays
1000 ms and 2000 ms. -/
theorem sendMessage_retry_policy {α : Type} (f : Nat → Except SendError α) :
    (sendMessage f).attemptsMade ≤ 3
    ∧ (∀ e, f 1 = .error e → isRetryable e = false →
        (sendMessage f).result = .error e ∧ (sendMessage f).attemptsMade = 1
        ∧ (sendMessage f).delays = [])
    ∧ (∀ k, k + 1 < (sendMessage f).attemptsMade →
        ∃ e, f (k + 1) = .error e ∧ isRetryable e = true)
    ∧ (sendMessage f).delays =
        (List.range ((sendMessage f).attemptsMade - 1)).map
          (fun i => retryDelay * (i + 1))
    ∧ (∀ a, f 1 = .error (.http 500) → f 2 = .error (.http 500) → f 3 = .ok a →
        (sendMessage f).result = .ok a ∧ (sendMessage f).attemptsMade = 3
        ∧ (sendMessage f).delays = [1000, 2000]) := by
  rcases hf1 : f 1 with e1 | a1
  · by_cases hr1 : isRetryable e1 = true
    · rcases hf2 : f 2 with e2 | a2
      · by_cases hr2 : isRetryable e2 = true
        · rcases hf3 : f 3 with e3 | a3
          · have hM : sendMessage f =
                { result := .error e3, attemptsMade := 3, delays := [1000, 2000] } := by
              simp [sendMessage, sendAttempts, maxRetries, retryDelay,
                hf1, hf2, hf3, hr1, hr2]
            refine ⟨by rw [hM], ?_, ?_, by rw [hM]; rfl, ?_⟩
            · intro e he hne
              injection he with he
              subst he
              rw [hne] at hr1
              exact Bool.noConfusion hr1
            · intro k hk
              have hk3 : k + 1 < 3 := by rw [hM] at hk; exact hk
              match k with
              | 0 => exact ⟨e1, hf1, hr1⟩
              | 1 => exact ⟨e2, hf2, hr2⟩
              | n + 2 => omega
            · intro a h1 h2 h3
              exact Except.noConfusion h3
          · have hM : sendMessage f =
                { result := .ok a3, attemptsMade := 3, delays := [1000, 2000] } := by
              simp [sendMessage, sendAttempts, maxRetries, retryDelay,
                hf1, hf2, hf3, hr1, hr2]
            refine ⟨by rw [hM], ?_, ?_, by rw [hM]; rfl, ?_⟩
            · intro e he hne
              injection he with he
              subst he
              rw [hne] at hr1
              exact Bool.noConfusion hr1
            · intro k hk
              have hk3 : k + 1 < 3 := by rw [hM] at hk; exact hk
              match k with
              | 0 => exact ⟨e1, hf1, hr1⟩
              | 1 => exact ⟨e2, hf2, hr2⟩
              | n + 2 => omega
            · intro a h1 h2 h3
              injection h3 with h3
              subst h3
              exact ⟨by rw [hM], by rw [hM], by rw [hM]⟩
        · have hM : sendMessage f =
              { result := .error e2, attemptsMade := 2, delays := [1000] } := by
            simp [sendMessage, sendAttempts, maxRetries, retryDelay,
              hf1, hf2, hr1, hr2]
          refine ⟨by rw [hM]; show (2 : Nat) ≤ 3; omega, ?_, ?_, by rw [hM]; rfl, ?_⟩
          · intro e he hne
            injection he with he
            subst he
            rw [hne] at hr1
            exact Bool.noConfusion hr1
          · intro k hk
            have hk2 : k + 1 < 2 := by rw [hM] at hk; exact hk
            match k with
            | 0 => exact ⟨e1, hf1, hr1⟩
            | n + 1 => omega
          · intro a h1 h2 h3
            injection h2 with h2
            subst h2
            exact absurd (by decide : isRetryable (.http 500) = true) hr2
      · have hM : sendMessage f =
            { result := .ok a2, attemptsMade := 2, delays := [1000] } := by
          simp [sendMessage, sendAttempts, maxRetries, retryDelay, hf1, hf2, hr1]
        refine ⟨by rw [hM]; show (2 : Nat) ≤ 3; omega, ?_, ?_, by rw [hM]; rfl, ?_⟩
        · intro e he hne
          injection he with he
          subst he
          rw [hne] at hr1
          exact Bool.noConfusion hr1
        · intro k hk
          have hk2 : k + 1 < 2 := by rw [hM] at hk; exact hk
          match k with
          | 0 => exact ⟨e1, hf1, hr1⟩
          | n + 1 => omega
        · intro a h1 h2 h3
          exact Except.noConfusion h2
    · have hr1' : isRetryable e1 = false := by
        cases hb : isRetryable e1 with
        | true => exact absurd hb hr1
        | false => rfl
      have hM : sendMessage f =
          { result := .error e1, attemptsMade := 1, delays := [] } := by
        simp [sendMessage, sendAttempts, maxRetries, hf1, hr1']
      refine ⟨by rw [hM]; show (1 : Nat) ≤ 3; omega, ?_, ?_, by rw [hM]; rfl, ?_⟩
      · intro e he _
        injection he with he
        subst he
        exact ⟨by rw [hM], by rw [hM], by rw [hM]⟩
      · intro k hk
        have hk1 : k + 1 < 1 := by rw [hM] at hk; exact hk
        omega
      · intro a h1 h2 h3
        injection h1 with h1
        subst h1
        exact absurd hr1' (by decide)
  · have hM : sendMessage f =
        { result := .ok a1, attemptsMade := 1, delays := [] } := by
      simp [sendMessage, sendAttempts, maxRetries, hf1]
    refine ⟨by rw [hM]; show (1 : Nat) ≤ 3; omega, ?_, ?_, by rw [hM]; rfl, ?_⟩
    · intro e he _
      exact Except.noConfusion he
    · intro k hk
      have hk1 : k + 1 < 1 := by rw [hM] at hk; exact hk
      omega
    · intro a h1 h2 h3
      exact Except.noConfusion h1

/-- C5 witness: the concrete 500/500/200 attempt sequence `c5f` satisfies the
scenario hypotheses, and `sendMessage` succeeds on it after exactly 2 retries
with linear delays. -/
theorem sendMessage_retry_policy_witness :
    (c5f 1 = .error (.http 500) ∧ c5f 2 = .error (.http 500) ∧ c5f 3 = .ok 7)
    ∧ ((sendMessage c5f).result = .ok 7 ∧ (sendMessage c5f).attemptsMade = 3
      ∧ (sendMessage c5f).delays = [1000, 2000]) :=
  ⟨⟨by decide, by decide, by decide⟩,
   (sendMessage_retry_policy c5f).2.2.2.2 7 (by decide) (by decide) (by decide)⟩

/-- C6 counterexample: the retry policy is not uniform across delivery
variants. On the attempt sequence `c6f` (attempt 1 → HTTP 500, a classified
transient error; attempt 2 → success), `sendMessage` retries and succeeds
with 2 attempts, while `sendMediaMessage` makes a single attempt and
propagates the 500 without any retry. -/
theorem uniform_retry_policy_cex :
    isRetryable (.http 500) = true
    ∧ (sendMessage c6f).result = .ok 7
    ∧ (sendMessage c6f).attemptsMade = 2
    ∧ (sendMediaMessage c6f).result = .error (.http 500)
    ∧ (sendMediaMessage c6f).attemptsMade = 1 := by
  decide

/-- C6 amended: `sendMediaMessage` performs exactly one attempt with no
retry delay, propagating any error — including classified-transient ones —
immediately, unlike `sendMessage`'s 3-attempt retry policy. -/
theorem sendMediaMessage_no_retry {α : Type} (f : Nat → Except SendError α) :
    (sendMediaMessage f).attemptsMade = 1
    ∧ (sendMediaMessage f).delays = []
    ∧ (∀ e, f 1 = .error e → (sendMediaMessage f).result = .error e)
    ∧ (∀ a, f 1 = .ok a → (sendMediaMessage f).result = .ok a) := by
  rcases hf1 : f 1 with e1 | a1
  · refine ⟨by simp [sendMediaMessage, hf1], by simp [sendMediaMessage, hf1], ?_, ?_⟩
    · intro e he
      injection he with he
      subst he
      simp [sendMediaMessage, hf1]
    · intro a ha
      exact Except.noConfusion ha
  · refine ⟨by simp [sendMediaMessage, hf1], by simp [sendMediaMessage, hf1], ?_, ?_⟩
    · intro e he
      exact Except.noConfusion he
    · intro a ha
      injection ha with ha
      subst ha
      simp [sendMediaMessage, hf1]

/-- C6 amended witness: on `c6f`, `sendMediaMessage` makes one attempt and
returns the HTTP 500 error. -/
theorem sendMediaMessage_no_retry_witness :
    (c6f 1 = .error (.http 500))
    ∧ ((sendMediaMessage c6f).attemptsMade = 1
      ∧ (sendMediaMessage c6f).result = .error (.http 500)) :=
  ⟨by decide,
   ⟨(sendMediaMessage_no_retry c6f).1,
    (sendMediaMessage_no_retry c6f).2.2.1 (.http 500) (by decide)⟩⟩

/-! ### Pipeline helper lemmas -/

theorem extractWebhookData_ok (body : InboundBody)
    (hchat : truthy body.chatId = true) :
    extractWebhookData body =
      .ok { chatId := body.chatId.getD "", agentId := body.agentId,
            messageId := body.messageId,
            userMessage := body.messageContent.getD "",
            imageUrl := if truthy body.mediaUrl then body.mediaUrl else none } := by
  simp [extractWebhookData, hchat]

theorem handle_dup_eq (c : Collab) (body : InboundBody) (store : DedupStore)
    (now : Nat) (hev : body.event ≠ some "chat.started")
    (hchat : truthy body.chatId = true)
    (hdup : isDuplicateMessage store body.messageId = true) :
    handle c body store now =
      { envelope := { status := 200, success := true, skipped := true,
                      reason := some "duplicate_message",
                      messageId := body.messageId },
        store := store, trace := { dedupChecked := true } } := by
  unfold handle
  rw [if_neg hev, extractWebhookData_ok body hchat]
  simp [hdup]

theorem handle_fresh_facts (c : Collab) (body : InboundBody) (store : DedupStore)
    (now : Nat) (hev : body.event ≠ some "chat.started")
    (hchat : truthy body.chatId = true)
    (hdup : isDuplicateMessage store body.messageId = false) :
    (handle c body store now).store = markMessageProcessed store body.messageId now
    ∧ (handle c body store now).trace.hookCalled = true
    ∧ (handle c body store now).trace.dedupChecked = true
    ∧ (handle c body store now).envelope.skipped = false := by
  unfold handle
  rw [if_neg hev, extractWebhookData_ok body hchat]
  simp only [hdup, Bool.false_eq_true, if_false]
  refine ⟨?_, ?_, ?_, ?_⟩ <;> (try split) <;> rfl

theorem handle_hookError_eq (c : Collab) (body : InboundBody) (store : DedupStore)
    (now : Nat) (e : String) (hev : body.event ≠ some "chat.started")
    (hchat : truthy body.chatId = true)
    (hdup : isDuplicateMessage store body.messageId = false)
    (hhook : ∀ d cv, c.hookOutcome d cv = .error e) :
    handle c body store now =
      { envelope := { status := 500, success := false, errorMsg := some e },
        store := markMessageProcessed store body.messageId now,
        trace := { dedupChecked := true, dedupMarked := true,
                   historyFetched := true, hookCalled := true,
                   errorNotifAttempts := handleErrorAttempts body } } := by
  unfold handle
  rw [if_neg hev, extractWebhookData_ok body hchat]
  simp only [hdup, Bool.false_eq_true, if_false, hhook]

theorem handle_hookOk_deliveryCalled (c : Collab) (body : InboundBody)
    (store : DedupStore) (now : Nat) (r : ProcessResult)
    (hev : body.event ≠ some "chat.started")
    (hchat : truthy body.chatId = true)
    (hdup : isDuplicateMessage store body.messageId = false)
    (hhook : ∀ d cv, c.hookOutcome d cv = .ok r) :
    (handle c body store now).trace.deliveryCalled =
      sendResponseInvokesClient (body.chatId.getD "") r := by
  unfold handle
  rw [if_neg hev, extractWebhookData_ok body hchat]
  simp only [hdup, Bool.false_eq_true, if_false, hhook]

theorem isTestChat_getD (body : InboundBody) (h : truthy body.chatId = true) :
    isTestChat (some (body.chatId.getD "")) = isTestChat body.chatId := by
  rcases hb : body.chatId with _ | ch
  · rw [hb] at h
    simp [truthy] at h
  · rfl

/-- C1: at-most-once duplicate handling. For a non-chat-started event with a
valid chat id and a truthy message id: if the id is already marked, `handle`
returns the skipped duplicate envelope with the store untouched and with
neither the domain hook nor the delivery client invoked; if the id is fresh,
`handle` invokes the hook; and a second `handle` invocation on the store the
first one produced always returns the skipped envelope without invoking the
hook or delivery — so of two invocations carrying the same message id at
most one invokes the domain hook and delivery. -/
theorem duplicate_short_circuit (c cB : Collab) (body : InboundBody)
    (store : DedupStore) (now nowB : Nat)
    (hev : body.event ≠ some "chat.started")
    (hchat : truthy body.chatId = true)
    (hmsg : truthy body.messageId = true) :
    (isDuplicateMessage store body.messageId = true →
      handle c body store now =
        { envelope := { status := 200, success := true, skipped := true,
                        reason := some "duplicate_message",
                        messageId := body.messageId },
          store := store, trace := { dedupChecked := true } })
    ∧ (isDuplicateMessage store body.messageId = false →
        (handle c body store now).trace.hookCalled = true)
    ∧ (handle cB body (handle c body store now).store nowB).trace.hookCalled = false
    ∧ (handle cB body (handle c body store now).store nowB).trace.deliveryCalled
        = false
    ∧ (handle cB body (handle c body store now).store nowB).envelope =
        { status := 200, success := true, skipped := true,
          reason := some "duplicate_message", messageId := body.messageId } := by
  have hdupAfter :
      isDuplicateMessage (handle c body store now).store body.messageId = true := by
    cases hdup : isDuplicateMessage store body.messageId with
    | true =>
      rw [handle_dup_eq c body store now hev hchat hdup]
      exact hdup
    | false =>
      rw [(handle_fresh_facts c body store now hev hchat hdup).1]
      exact isDup_after_mark store body.messageId now hmsg
  have h2 := handle_dup_eq cB body _ nowB hev hchat hdupAfter
  refine ⟨fun hdup => handle_dup_eq c body store now hev hchat hdup,
          fun hdup => (handle_fresh_facts c body store now hev hchat hdup).2.1,
          ?_, ?_, ?_⟩ <;> rw [h2]

/-- C1 witness: two sequential `handle` calls for message id `"m42"` on an
initially empty store — the second returns the skipped duplicate envelope. -/
theorem duplicate_short_circuit_witness :
    (c1Body.event ≠ some "chat.started" ∧ truthy c1Body.chatId = true
      ∧ truthy c1Body.messageId = true)
    ∧ (handle (plainCollab {}) c1Body
        ((handle (plainCollab {}) c1Body [] 0).store) 1).envelope =
        { status := 200, success := true, skipped := true,
          reason := some "duplicate_message", messageId := c1Body.messageId } :=
  ⟨⟨by decide, by decide, by decide⟩,
   (duplicate_short_circuit (plainCollab {}) (plainCollab {}) c1Body [] 0 1
     (by decide) (by decide) (by decide)).2.2.2.2⟩

/-- C7: validation short-circuit without side effects. For a non-chat-started
body with a falsy `chat.id`, `handle` returns the 400 validation envelope,
leaves the dedup store untouched, and its trace is empty: the dedup store is
neither consulted nor written and the history fetch, domain hook and
delivery client are never invoked. -/
theorem validation_short_circuit (c : Collab) (body : InboundBody)
    (store : DedupStore) (now : Nat)
    (hev : body.event ≠ some "chat.started")
    (hchat : truthy body.chatId = false) :
    handle c body store now =
      { envelope := { status := 400, success := false,
                      errorMsg := some "Missing chat.id in webhook payload" },
        store := store, trace := {} } := by
  unfold handle
  rw [if_neg hev]
  have hex : extractWebhookData body =
      .error "Missing chat.id in webhook payload" := by
    simp [extractWebhookData, hchat]
  rw [hex]

/-- C7 witness: the empty body (no event, no chat id) yields the 400
envelope with an untouched store and an empty trace. -/
theorem validation_short_circuit_witness :
    (({} : InboundBody).event ≠ some "chat.started"
      ∧ truthy ({} : InboundBody).chatId = false)
    ∧ handle (plainCollab {}) {} [] 0 =
        { envelope := { status := 400, success := false,
                        errorMsg := some "Missing chat.id in webhook payload" },
          store := [], trace := {} } :=
  ⟨⟨by decide, by decide⟩,
   validation_short_circuit (plainCollab {}) {} [] 0 (by decide) (by decide)⟩

/-- C8 counterexample: for the reachable input `c8Body` — a valid, fresh,
non-chat-started event whose chat id `"test-chat-1"` is a test chat — the
domain hook throws, `handle` returns the 500 envelope, but it attempts zero
user-facing error notifications, refuting "attempts exactly one best-effort
user-facing error notification". -/
theorem pipeline_error_boundary_cex :
    truthy c8Body.chatId = true
    ∧ (handle c8Collab c8Body [] 0).envelope.status = 500
    ∧ (handle c8Collab c8Body [] 0).envelope.success = false
    ∧ (handle c8Collab c8Body [] 0).trace.hookCalled = true
    ∧ (handle c8Collab c8Body [] 0).trace.errorNotifAttempts = 0 := by
  decide

/-- C8 amended: every exception thrown after validation and dedup marking is
caught at the boundary of `handle`, which returns the 500 envelope with the
error message, attempts at most one best-effort user-facing error
notification — exactly one when the chat id is not a test chat, zero for a
test chat —, is unaffected by the notification's own outcome (its failure is
swallowed), and every `handle` call whatsoever returns one of the 200, 400
or 500 envelopes: no request ends without a response. -/
theorem pipeline_error_boundary (c : Collab) (body : InboundBody)
    (store : DedupStore) (now : Nat) (e : String)
    (hev : body.event ≠ some "chat.started")
    (hchat : truthy body.chatId = true)
    (hdup : isDuplicateMessage store body.messageId = false)
    (hhook : ∀ d cv, c.hookOutcome d cv = .error e) :
    (handle c body store now).envelope =
      { status := 500, success := false, errorMsg := some e }
    ∧ (handle c body store now).trace.errorNotifAttempts =
        (if isTestChat body.chatId then 0 else 1)
    ∧ (handle c body store now).trace.errorNotifAttempts ≤ 1
    ∧ (∀ n, handle { c with notifOutcome := n } body store now =
        handle c body store now)
    ∧ (∀ (c2 : Collab) (b2 : InboundBody) (s2 : DedupStore) (n2 : Nat),
        (handle c2 b2 s2 n2).envelope.status = 200
        ∨ (handle c2 b2 s2 n2).envelope.status = 400
        ∨ (handle c2 b2 s2 n2).envelope.status = 500) := by
  have hE := handle_hookError_eq c body store now e hev hchat hdup hhook
  refine ⟨by rw [hE], ?_, ?_, ?_, ?_⟩
  · rw [hE]
    show handleErrorAttempts body = _
    unfold handleErrorAttempts
    rw [hchat]
    cases ht : isTestChat body.chatId <;> simp [ht]
  · rw [hE]
    show handleErrorAttempts body ≤ 1
    unfold handleErrorAttempts
    split <;> omega
  · intro n
    rfl
  · intro c2 b2 s2 n2
    unfold handle
    by_cases hev2 : b2.event = some "chat.started"
    · rw [if_pos hev2]
      unfold handleChatStarted
      dsimp only
      by_cases h1 : truthy (jsOr b2.rootChatId b2.metaChatId) = false
      · rw [if_pos h1]
        right
        left
        rfl
      · rw [if_neg h1]
        by_cases h2 : isTestChat (jsOr b2.rootChatId b2.metaChatId) = false
        · rw [if_pos h2]
          cases c2.welcomeSendOutcome with
          | error e2 =>
            right
            right
            rfl
          | ok u =>
            left
            rfl
        · rw [if_neg h2]
          left
          rfl
    · rw [if_neg hev2]
      cases hx : extractWebhookData b2 with
      | error e2 =>
        right
        left
        rfl
      | ok data =>
        dsimp only
        by_cases hd : isDuplicateMessage s2 data.messageId = true
        · rw [if_pos hd]
          left
          rfl
        · rw [if_neg hd]
          cases c2.hookOutcome data
              (fetchAndProcessHistory c2.historyOutcome data.chatId data.agentId) with
          | error e2 =>
            right
            right
            rfl
          | ok r =>
            left
            rfl

/-- C8 amended witness: for a non-test chat the hook error yields the 500
envelope and exactly one notification attempt. -/
theorem pipeline_error_boundary_witness :
    (c8BodyB.event ≠ some "chat.started" ∧ truthy c8BodyB.chatId = true
      ∧ isDuplicateMessage [] c8BodyB.messageId = false
      ∧ (∀ d cv, c8Collab.hookOutcome d cv = .error "boom"))
    ∧ ((handle c8Collab c8BodyB [] 0).envelope =
        { status := 500, success := false, errorMsg := some "boom" }
      ∧ (handle c8Collab c8BodyB [] 0).trace.errorNotifAttempts =
          (if isTestChat c8BodyB.chatId then 0 else 1)) :=
  ⟨⟨by decide, by decide, by decide, fun _ _ => rfl⟩,
   ⟨(pipeline_error_boundary c8Collab c8BodyB [] 0 "boom"
       (by decide) (by decide) (by decide) (fun _ _ => rfl)).1,
    (pipeline_error_boundary c8Collab c8BodyB [] 0 "boom"
       (by decide) (by decide) (by decide) (fun _ _ => rfl)).2.1⟩⟩

/-- C9: an event whose message id is missing, null or empty bypasses
deduplication entirely — `isDuplicateMessage` is false for it,
`markMessageProcessed` inserts nothing — so `handle` never short-circuits it
as a duplicate: the domain hook runs, the store is unchanged, a redelivery
runs the hook again, and delivery is invoked whenever the hook's result asks
for a text response in a non-test chat. -/
theorem falsy_messageId_bypasses_dedup (c cB : Collab) (body : InboundBody)
    (store : DedupStore) (now nowB : Nat)
    (hev : body.event ≠ some "chat.started")
    (hchat : truthy body.chatId = true)
    (hmid : truthy body.messageId = false) :
    isDuplicateMessage store body.messageId = false
    ∧ markMessageProcessed store body.messageId now = store
    ∧ (handle c body store now).envelope.skipped = false
    ∧ (handle c body store now).trace.hookCalled = true
    ∧ (handle c body store now).store = store
    ∧ (handle cB body (handle c body store now).store nowB).trace.hookCalled = true
    ∧ (∀ r : ProcessResult, (∀ d cv, c.hookOutcome d cv = .ok r) →
        isTestChat body.chatId = false → r.sent = false →
        truthy r.imageUrl = false → truthy r.response = true →
        (handle c body store now).trace.deliveryCalled = true) := by
  have hfalse : isDuplicateMessage store body.messageId = false := by
    rcases hb : body.messageId with _ | m
    · rfl
    · have hm : (m == "") = true := by
        rw [hb] at hmid
        simpa [truthy] using hmid
      simp [isDuplicateMessage, hm]
  have hmark : markMessageProcessed store body.messageId now = store := by
    rcases hb : body.messageId with _ | m
    · rfl
    · have hm : (m == "") = true := by
        rw [hb] at hmid
        simpa [truthy] using hmid
      simp [markMessageProcessed, hm]
  have hfacts := handle_fresh_facts c body store now hev hchat hfalse
  have hstore : (handle c body store now).store = store := by
    rw [hfacts.1, hmark]
  refine ⟨hfalse, hmark, hfacts.2.2.2, hfacts.2.1, hstore, ?_, ?_⟩
  · rw [hstore]
    exact (handle_fresh_facts cB body store nowB hev hchat hfalse).2.1
  · intro r hhook htest hsent himg hresp
    rw [handle_hookOk_deliveryCalled c body store now r hev hchat hfalse hhook]
    unfold sendResponseInvokesClient
    rw [isTestChat_getD body hchat, htest, hsent]
    simp [himg, hresp, isTestChat_getD body hchat, htest]

/-- C9 witness: a fresh body with no message id — the hook runs, the store
stays empty, a redelivery runs the hook again, and delivery is invoked for a
plain text result. -/
theorem falsy_messageId_bypasses_dedup_witness :
    (c9Body.event ≠ some "chat.started" ∧ truthy c9Body.chatId = true
      ∧ truthy c9Body.messageId = false
      ∧ (∀ d cv, (plainCollab c9Result).hookOutcome d cv = .ok c9Result)
      ∧ isTestChat c9Body.chatId = false ∧ c9Result.sent = false
      ∧ truthy c9Result.imageUrl = false ∧ truthy c9Result.response = true)
    ∧ ((handle (plainCollab c9Result) c9Body
          ((handle (plainCollab c9Result) c9Body [] 0).store) 1).trace.hookCalled
        = true
      ∧ (handle (plainCollab c9Result) c9Body [] 0).trace.deliveryCalled = true) :=
  ⟨⟨by decide, by decide, by decide, fun _ _ => rfl, by decide, by decide,
    by decide, by decide⟩,
   ⟨(falsy_messageId_bypasses_dedup (plainCollab c9Result) (plainCollab c9Result)
       c9Body [] 0 1 (by decide) (by decide) (by decide)).2.2.2.2.2.1,
    (falsy_messageId_bypasses_dedup (plainCollab c9Result) (plainCollab c9Result)
       c9Body [] 0 1 (by decide) (by decide) (by decide)).2.2.2.2.2.2 c9Result
       (fun _ _ => rfl) (by decide) (by decide) (by decide) (by decide)⟩⟩

/-! ### Group coordinator lemmas and claims -/

theorem getInterviewState_setInterviewState (st : GroupStorage) (chatId : String)
    (iv : InterviewState) :
    getInterviewState (setInterviewState st chatId iv) chatId = some iv := by
  unfold getInterviewState setInterviewState
  rw [jsMapGet_jsMapSet]

theorem getResponseState_saveResponseState (st : GroupStorage) (chatId : String)
    (rs : ResponseState) :
    getResponseState (saveResponseState st chatId rs) chatId = rs := by
  simp only [getResponseState, saveResponseState,
    getInterviewState_setInterviewState]

theorem clearQuestionTracking_resets (st : GroupStorage) (chatId : String) :
    (getResponseState (clearQuestionTracking st chatId) chatId).respondedUserIds = []
    ∧ (getResponseState (clearQuestionTracking st chatId) chatId).expectedUserIds = []
    ∧ (getResponseState (clearQuestionTracking st chatId) chatId).currentQuestionId
        = none := by
  simp only [clearQuestionTracking, getResponseState,
    getInterviewState_setInterviewState]
  simp

/-- C2 counterexample: starting tracking for chat `"c"` with expected set
`["A"]` establishes the inclusion, but `recordUserResponse` with the foreign
user `"B"` — not in the expected set — pushes `"B"` into the responded set,
so the resulting reachable state violates
`respondedUserIds ⊆ expectedUserIds`. -/
theorem group_tracking_inclusion_cex :
    respondedIncluded (getResponseState c2Store0 "c")
    ∧ "B" ∉ (getResponseState c2Store0 "c").expectedUserIds
    ∧ ¬ respondedIncluded
        (getResponseState (recordUserResponse c2Store0 "c" "B").2 "c") := by
  decide

/-- C2 amended: `startQuestionTracking` and `clearQuestionTracking` always
yield a state satisfying `respondedUserIds ⊆ expectedUserIds` (the responded
set is reset to empty); `recordUserResponse` preserves the inclusion when
the recording user is in `expectedUserIds` — but not in general, since a
foreign user id is pushed into `respondedUserIds` unconditionally. -/
theorem group_tracking_inclusion (st : GroupStorage) (chatId userId rand : String)
    (now : Nat) (expectedIds : List String) :
    respondedIncluded
      (getResponseState (startQuestionTracking st chatId expectedIds now rand).2
        chatId)
    ∧ respondedIncluded (getResponseState (clearQuestionTracking st chatId) chatId)
    ∧ (respondedIncluded (getResponseState st chatId) →
        userId ∈ (getResponseState st chatId).expectedUserIds →
        respondedIncluded
          (getResponseState (recordUserResponse st chatId userId).2 chatId)) := by
  refine ⟨?_, ?_, ?_⟩
  · unfold startQuestionTracking
    dsimp only
    rw [getResponseState_saveResponseState]
    intro u hu
    simp at hu
  · intro u hu
    rw [(clearQuestionTracking_resets st chatId).1] at hu
    simp at hu
  · intro hinv hexp
    unfold recordUserResponse
    dsimp only
    by_cases hq : truthy (getResponseState st chatId).currentQuestionId = false
    · rw [if_pos hq]
      exact hinv
    · rw [if_neg hq]
      by_cases hc :
          (getResponseState st chatId).respondedUserIds.contains userId = true
      · rw [if_pos hc]
        exact hinv
      · rw [if_neg hc]
        dsimp only
        rw [getResponseState_saveResponseState]
        intro u hu
        dsimp only at hu ⊢
        rcases List.mem_append.mp hu with h | h
        · exact hinv u h
        · have hu2 : u = userId := by simpa using h
          subst hu2
          exact hexp

/-- C2 amended witness: recording the expected user `"A"` preserves the
inclusion on the concrete reachable state `c2Store0`. -/
theorem group_tracking_inclusion_witness :
    (respondedIncluded (getResponseState c2Store0 "c")
      ∧ "A" ∈ (getResponseState c2Store0 "c").expectedUserIds)
    ∧ respondedIncluded
        (getResponseState (recordUserResponse c2Store0 "c" "A").2 "c") :=
  ⟨⟨by decide, by decide⟩,
   (group_tracking_inclusion c2Store0 "c" "A" "x" 0 ["A"]).2.2
     (by decide) (by decide)⟩

/-- C3 counterexample: in the reachable state `c3Store` — tracking started
for `["A", "B"]`, then the foreign user `"C"` recorded —
`isWaitingForResponses` returns true, yet `respondedUserIds` is not a proper
subset of `expectedUserIds` (it is not even a subset), so the claimed
"true iff a question is active and responded ⊊ expected" fails. -/
theorem isWaiting_proper_subset_cex :
    isWaitingForResponses c3Store "g" = true
    ∧ ¬ ((getResponseState c3Store "g").currentQuestionId.isSome = true
        ∧ respondedIncluded (getResponseState c3Store "g")
        ∧ ¬ (∀ u ∈ (getResponseState c3Store "g").expectedUserIds,
              u ∈ (getResponseState c3Store "g").respondedUserIds)) := by
  decide

/-- C3 amended: `isWaitingForResponses` returns true iff a question is
active (`currentQuestionId` non-null) and `respondedUserIds` has strictly
fewer elements than `expectedUserIds`; when `expectedUserIds` is empty it is
always false; and whenever `respondedUserIds ⊆ expectedUserIds` and both
lists are duplicate-free — as on the intended call paths — the length
condition coincides with `respondedUserIds ⊊ expectedUserIds`. -/
theorem isWaiting_length_spec (st : GroupStorage) (chatId : String) :
    (isWaitingForResponses st chatId = true ↔
      ((getResponseState st chatId).currentQuestionId.isSome = true
        ∧ (getResponseState st chatId).respondedUserIds.length <
            (getResponseState st chatId).expectedUserIds.length))
    ∧ ((getResponseState st chatId).expectedUserIds = [] →
        isWaitingForResponses st chatId = false)
    ∧ (∀ rs : ResponseState, rs.respondedUserIds.Nodup →
        rs.expectedUserIds.Nodup → respondedIncluded rs →
        (rs.respondedUserIds.length < rs.expectedUserIds.length ↔
          (respondedIncluded rs
            ∧ ¬ (∀ u ∈ rs.expectedUserIds, u ∈ rs.respondedUserIds)))) := by
  refine ⟨?_, ?_, ?_⟩
  · unfold isWaitingForResponses
    dsimp only
    constructor
    · intro h
      simp only [Bool.and_eq_true, decide_eq_true_eq] at h
      exact ⟨h.1.1, h.2⟩
    · intro h
      simp only [Bool.and_eq_true, decide_eq_true_eq]
      exact ⟨⟨h.1, by omega⟩, h.2⟩
  · intro h
    unfold isWaitingForResponses
    dsimp only
    rw [h]
    simp
  · intro rs hnr hne hsub
    constructor
    · intro hlt
      refine ⟨hsub, fun hall => ?_⟩
      have hsub2 : rs.expectedUserIds ⊆ rs.respondedUserIds :=
        fun x hx => hall x hx
      have hle := (hne.subperm hsub2).length_le
      omega
    · intro h
      by_contra hge
      push_neg at hge
      have hsp := hnr.subperm (fun x hx => hsub x hx)
      have hperm := hsp.perm_of_length_le hge
      exact h.2 (fun u hu => hperm.symm.subset hu)

/-- C3 amended witness: the empty chat has empty expected users and is not
waiting; the concrete state `c3RS` (responded `["A"]` ⊆ expected
`["A", "B"]`, both duplicate-free) realizes the length/proper-subset
equivalence. -/
theorem isWaiting_length_spec_witness :
    ((getResponseState [] "w").expectedUserIds = []
      ∧ isWaitingForResponses [] "w" = false)
    ∧ (c3RS.respondedUserIds.Nodup ∧ c3RS.expectedUserIds.Nodup
      ∧ respondedIncluded c3RS
      ∧ (c3RS.respondedUserIds.length < c3RS.expectedUserIds.length ↔
          (respondedIncluded c3RS
            ∧ ¬ (∀ u ∈ c3RS.expectedUserIds, u ∈ c3RS.respondedUserIds)))) :=
  ⟨⟨by decide, (isWaiting_length_spec [] "w").2.1 (by decide)⟩,
   ⟨by decide, by decide, by decide,
    (isWaiting_length_spec [] "w").2.2 c3RS (by decide) (by decide) (by decide)⟩⟩

/-- C10: when no question is being tracked for a chat (`currentQuestionId`
falsy), `recordUserResponse` returns `allResponded := false`, persists
nothing (the storage is returned unchanged), and reports the unchanged
tracking state. -/
theorem recordUserResponse_no_question (st : GroupStorage) (chatId userId : String)
    (h : truthy (getResponseState st chatId).currentQuestionId = false) :
    (recordUserResponse st chatId userId).1.allResponded = false
    ∧ (recordUserResponse st chatId userId).2 = st
    ∧ (recordUserResponse st chatId userId).1.responseState =
        getResponseState st chatId := by
  unfold recordUserResponse
  dsimp only
  rw [if_pos h]
  exact ⟨rfl, rfl, rfl⟩

/-- C10 witness: on the empty storage no question is tracked, and recording
`"u1"` returns `allResponded := false` and leaves the storage empty. -/
theorem recordUserResponse_no_question_witness :
    truthy (getResponseState [] "c").currentQuestionId = false
    ∧ ((recordUserResponse [] "c" "u1").1.allResponded = false
      ∧ (recordUserResponse [] "c" "u1").2 = []) :=
  ⟨by decide,
   ⟨(recordUserResponse_no_question [] "c" "u1" (by decide)).1,
    (recordUserResponse_no_question [] "c" "u1" (by decide)).2.1⟩⟩

end Spec2Proof
